import Mathlib

/-!
Shallow embedding of the `doordash-fifty-alert` Cloudflare worker
(`src/unnamed/part_000`, the full worker with signup, unsubscribe and
feedback; `src/worker/index.js`, the older feedback handler without HTML
escaping; the signup/unsubscribe logic of `src/unnamed/part_001` is
identical to `part_000` on the claims settled here).

JavaScript strings are modelled as Lean `String` (a wrapper around
`List Char`); all operations the worker performs on them (`trim`,
`toLowerCase`, `includes`, `replace`, `slice`) are defined below directly
on the character list.  `toLowerCase` is modelled by its ASCII case table,
which is all the reasoning here depends on.  The single upstream HTTP call
each handler makes to the Resend API is modelled by an oracle value
`Upstream` (the provider's parsed JSON reply) passed to the handler, and
each handler returns, next to its `Response`, the list of upstream requests
it issued, so that "issues no upstream request" and "performs no retry"
are directly statable.
-/

namespace FiftyAlert

/-! ### JavaScript string primitives -/

/-- Character membership test, the model of JS `String.prototype.includes`
with a single-character argument. -/
def listContainsChar : List Char → Char → Bool
  | [], _ => false
  | a :: t, c => a == c || listContainsChar t c

/-- Model of `sub` being a prefix of `l`, used by `listContainsSub`. -/
def listTakesOff : List Char → List Char → Bool
  | _, [] => true
  | [], _ :: _ => false
  | a :: t, b :: u => a == b && listTakesOff t u

/-- Substring test, the model of JS `String.prototype.includes` with a
string argument. -/
def listContainsSub : List Char → List Char → Bool
  | [], sub => sub.isEmpty
  | a :: t, sub => listTakesOff (a :: t) sub || listContainsSub t sub

/-- JS `s.includes(c)` for a single character `c`. -/
def strContainsChar (s : String) (c : Char) : Bool := listContainsChar s.data c

/-- JS `s.includes(sub)` for a substring `sub`. -/
def strIncludes (s sub : String) : Bool := listContainsSub s.data sub.data

/-- The whitespace class stripped by JS `String.prototype.trim`
(ASCII part; the worker's emails only meet ASCII whitespace). -/
def isJsWhitespace (c : Char) : Bool :=
  c == ' ' || c == '\t' || c == '\n' || c == '\r' || c == '\x0b' || c == '\x0c'

/-- JS `trim` on the character list: drop whitespace from both ends. -/
def trimList (l : List Char) : List Char :=
  ((l.dropWhile isJsWhitespace).reverse.dropWhile isJsWhitespace).reverse

/-- JS `s.trim()`. -/
def jsTrim (s : String) : String := ⟨trimList s.data⟩

/-- The ASCII case table of JS `String.prototype.toLowerCase`. -/
def lowerChar (c : Char) : Char :=
  match c with
  | 'A' => 'a' | 'B' => 'b' | 'C' => 'c' | 'D' => 'd' | 'E' => 'e' | 'F' => 'f'
  | 'G' => 'g' | 'H' => 'h' | 'I' => 'i' | 'J' => 'j' | 'K' => 'k' | 'L' => 'l'
  | 'M' => 'm' | 'N' => 'n' | 'O' => 'o' | 'P' => 'p' | 'Q' => 'q' | 'R' => 'r'
  | 'S' => 's' | 'T' => 't' | 'U' => 'u' | 'V' => 'v' | 'W' => 'w' | 'X' => 'x'
  | 'Y' => 'y' | 'Z' => 'z'
  | c => c

/-- JS `s.toLowerCase()` (ASCII). -/
def jsToLower (s : String) : String := ⟨s.data.map lowerChar⟩

/-- The worker's email normalisation `email.trim().toLowerCase()`. -/
def jsClean (s : String) : String := jsToLower (jsTrim s)

/-- JS truthiness-based default `x || d` for an optional string `x`:
`undefined` and the empty string fall back to `d`. -/
def jsOr (x : Option String) (d : String) : String :=
  match x with
  | none => d
  | some s => if s = "" then d else s

/-- JS `x || undefined`: an absent or empty string becomes `undefined`. -/
def jsOrUndef (x : Option String) : Option String :=
  match x with
  | none => none
  | some s => if s = "" then none else some s

/-- JS template interpolation of a possibly-`undefined` value:
interpolating `undefined` yields the literal text `undefined`. -/
def jsTemplate (x : Option String) : String :=
  match x with
  | none => "undefined"
  | some s => s

/-- Single-character global replace on the character list, the model of
JS `s.replace(/c/g, r)`. -/
def repChar (l : List Char) (c : Char) (r : List Char) : List Char :=
  l.flatMap (fun x => if x = c then r else [x])

/-- JS `s.replace(/c/g, r)` for a single character pattern `c`. -/
def replaceAllChar (s : String) (c : Char) (r : String) : String :=
  ⟨repChar s.data c r.data⟩

/-! ### `escapeHtml` (src/unnamed/part_000, lines 23-32) -/

/-- The per-character escape table of `escapeHtml`: the regex
`/[&<>"']/g` together with the replacement map of the source. -/
def escapeChar (c : Char) : List Char :=
  if c = '&' then "&amp;".data
  else if c = '<' then "&lt;".data
  else if c = '>' then "&gt;".data
  else if c = '"' then "&quot;".data
  else if c = '\'' then "&#039;".data
  else [c]

/-- The worker's `escapeHtml`: one pass over the string replacing every
character matched by `/[&<>"']/g` by its mapped entity. -/
def escapeHtml (text : String) : String := ⟨text.data.flatMap escapeChar⟩

/-- The claim's reading of `escapeHtml`: replace every occurrence of the
five characters by their entities, one character class after the other,
in the order the claim lists them. -/
def escapeHtmlSeq (s : String) : String :=
  replaceAllChar (replaceAllChar (replaceAllChar (replaceAllChar
    (replaceAllChar s '&' "&amp;") '<' "&lt;") '>' "&gt;") '"' "&quot;") '\'' "&#039;"

/-- A character the HTML context must never receive unescaped. -/
def noDangerChar (c : Char) : Prop := c ≠ '<' ∧ c ≠ '>' ∧ c ≠ '"' ∧ c ≠ '\''

/-- A string free of the four HTML-dangerous characters. -/
def noDanger (s : String) : Prop := ∀ c ∈ s.data, noDangerChar c

/-! ### Data model of the worker's HTTP surface -/

/-- The JSON bodies the worker can put in a `Response`, plus the two
non-JSON cases: the `null` body of the CORS preflight and the static
unsubscribe form page.  The page's text (`getUnsubscribePageHTML`,
src/unnamed/part_000 lines 276-387) is a fixed HTML document no claim
inspects, so only its content kind is modelled. -/
inductive Body
  | jsonOk (message : String)
  | jsonErr (error : String)
  | htmlPage
  | noBody
deriving DecidableEq

/-- A worker `Response`: status, headers, body. -/
structure WResponse where
  status : Nat
  headers : List (String × String)
  body : Body
deriving DecidableEq

/-- The requests a handler can issue to the Resend API.  The audience id,
API key and URL encoding are injective dressing of the fields kept here
and are elided. -/
inductive UpstreamReq
  | addContact (email : String)
  | patchContact (email : String)
  | sendEmail (toAddr : String) (replyTo : Option String) (subject html text : String)
deriving DecidableEq

/-- The provider's reply to the single upstream call, as the worker sees
it: `response.ok`, `response.status`, and the `message` field of the
parsed JSON body (absent when the reply has none). -/
structure Upstream where
  ok : Bool
  status : Nat
  message : Option String
deriving DecidableEq

/-- The parsed JSON request body: the fields the handlers read.  A field
the client did not send is `none` (JS `undefined`). -/
structure ReqBody where
  email : Option String
  message : Option String
  type : Option String
deriving DecidableEq

/-- An incoming request as the `fetch` handler reads it: method, pathname,
the `email` query parameter (`url.searchParams.get('email')`, `none` when
absent), and the JSON body (`none` when `request.json()` would throw). -/
structure WRequest where
  method : String
  pathname : String
  queryEmail : Option String
  body : Option ReqBody

/-- The environment variables the feedback handler reads. -/
structure Env where
  ADMIN_EMAIL : String
  FORWARD_EMAIL : String

/-- `CORS_HEADERS` (src/unnamed/part_000 lines 14-18). -/
def CORS_HEADERS : List (String × String) :=
  [("Access-Control-Allow-Origin", "*"),
   ("Access-Control-Allow-Methods", "POST, GET, OPTIONS"),
   ("Access-Control-Allow-Headers", "Content-Type")]

/-- `new Response(JSON.stringify(...), { status, headers: { ...CORS_HEADERS,
'Content-Type': 'application/json' } })`, the shape of every JSON reply
in the worker. -/
def jsonResponse (status : Nat) (b : Body) : WResponse :=
  ⟨status, CORS_HEADERS ++ [("Content-Type", "application/json")], b⟩

/-- The response serving `getUnsubscribePageHTML()` with the `text/html`
content type. -/
def unsubPageResponse : WResponse :=
  ⟨200, CORS_HEADERS ++ [("Content-Type", "text/html")], Body.htmlPage⟩

/-- The `null`-body CORS preflight response (status defaults to 200). -/
def preflightResponse : WResponse := ⟨200, CORS_HEADERS, Body.noBody⟩

/-- `result.message?.includes(sub)` on the provider's parsed reply. -/
def upstreamMsgIncludes (up : Upstream) (sub : String) : Bool :=
  match up.message with
  | none => false
  | some m => strIncludes m sub

/-! ### The feedback email template (src/unnamed/part_000 lines 167-185;
the template literal text is byte-identical in src/worker/index.js
lines 136-154, only the interpolated expressions differ) -/

/-- Template text before the interpolated type. -/
def feedbackChunk0 : String :=
  "\n          <div style=\"font-family: Arial, sans-serif; max-width: 600px; margin: 0 auto;\">\n            <h2 style=\"color: #FF3008;\">New "

/-- Template text between the interpolated type and the message. -/
def feedbackChunk1 : String :=
  " Received</h2>\n            <div style=\"background: #f5f5f5; padding: 20px; border-radius: 8px; margin: 20px 0;\">\n              <p style=\"margin: 0; font-size: 16px; line-height: 1.6;\">"

/-- Template text between the interpolated message and the sender email. -/
def feedbackChunk2 : String :=
  "</p>\n            </div>\n            <p style=\"color: #666; font-size: 14px;\"><strong>From:</strong> "

/-- Template text between the sender email and the forward address. -/
def feedbackChunk3 : String :=
  "</p>\n            <p style=\"color: #999; font-size: 12px; margin-top: 16px;\">Please forward to: "

/-- Template text after the forward address. -/
def feedbackChunk4 : String :=
  "</p>\n            <hr style=\"border: none; border-top: 1px solid #eee; margin: 20px 0;\">\n            <p style=\"color: #999; font-size: 12px;\">Sent from 50-Point Alerts feedback form</p>\n          </div>\n        "

/-- `escapeHtml(message).replace(/\n/g, '<br>')`'s second step: newline
to `<br>`. -/
def brNewlines (s : String) : String := replaceAllChar s '\n' "<br>"

/-- The `html` field of the feedback email in src/unnamed/part_000:
every interpolated user value passes through `escapeHtml`. -/
def feedbackHtml (forwardEmail m : String) (ty em : Option String) : String :=
  feedbackChunk0 ++ escapeHtml (jsOr ty "Feedback") ++ feedbackChunk1
    ++ brNewlines (escapeHtml m) ++ feedbackChunk2
    ++ escapeHtml (jsOr em "Anonymous") ++ feedbackChunk3
    ++ forwardEmail ++ feedbackChunk4

/-- The `subject` field:
`` `[50-Point Alerts] New ${type || 'Feedback'}: ${message.slice(0, 50)}...` ``. -/
def feedbackSubject (m : String) (ty : Option String) : String :=
  "[50-Point Alerts] New " ++ jsOr ty "Feedback" ++ ": " ++ (⟨m.data.take 50⟩ : String) ++ "..."

/-- The plain-`text` field of the feedback email. -/
def feedbackText (forwardEmail m : String) (ty em : Option String) : String :=
  "New " ++ jsOr ty "Feedback" ++ ":\n\n" ++ m ++ "\n\nFrom: " ++ jsTemplate em
    ++ "\n\nPlease forward to: " ++ forwardEmail

/-- The single upstream send issued by `handleFeedback`
(src/unnamed/part_000 lines 161-186). -/
def feedbackRequest (env : Env) (m : String) (ty em : Option String) : UpstreamReq :=
  UpstreamReq.sendEmail env.ADMIN_EMAIL (jsOrUndef em) (feedbackSubject m ty)
    (feedbackHtml env.FORWARD_EMAIL m ty em) (feedbackText env.FORWARD_EMAIL m ty em)

/-! ### The handlers (src/unnamed/part_000) -/

/-- `handleSignup` (lines 81-145).  `body = none` models a request body
`request.json()` cannot parse: the `catch` turns it into a 500.  The
second component lists the upstream requests issued. -/
def handleSignup (body : Option ReqBody) (up : Upstream) : WResponse × List UpstreamReq :=
  match body with
  | none => (jsonResponse 500 (Body.jsonErr "Server error"), [])
  | some b =>
    match b.email.map jsClean with
    | none => (jsonResponse 400 (Body.jsonErr "Invalid email address"), [])
    | some email =>
      if email = "" ∨ strContainsChar email '@' = false then
        (jsonResponse 400 (Body.jsonErr "Invalid email address"), [])
      else
        if up.ok = false then
          if upstreamMsgIncludes up "already exists" = true then
            (jsonResponse 200 (Body.jsonOk "Already subscribed!"), [UpstreamReq.addContact email])
          else
            (jsonResponse 500 (Body.jsonErr "Failed to subscribe"), [UpstreamReq.addContact email])
        else
          (jsonResponse 200 (Body.jsonOk "Successfully subscribed!"), [UpstreamReq.addContact email])

/-- `handleFeedback` (lines 147-212). -/
def handleFeedback (env : Env) (body : Option ReqBody) (up : Upstream) :
    WResponse × List UpstreamReq :=
  match body with
  | none => (jsonResponse 500 (Body.jsonErr "Server error"), [])
  | some b =>
    match b.message with
    | none => (jsonResponse 400 (Body.jsonErr "Please enter a message"), [])
    | some m =>
      if m = "" ∨ (jsTrim m).length < 3 then
        (jsonResponse 400 (Body.jsonErr "Please enter a message"), [])
      else
        if up.ok = false then
          (jsonResponse 500 (Body.jsonErr "Failed to send feedback"), [feedbackRequest env m b.type b.email])
        else
          (jsonResponse 200 (Body.jsonOk "Feedback sent! Thanks for your input."),
           [feedbackRequest env m b.type b.email])

/-- `handleUnsubscribe` (lines 214-274).  The validation
`!email || !email.includes('@')` runs on the raw email; normalisation to
`cleanEmail` happens after it. -/
def handleUnsubscribe (email : Option String) (up : Upstream) :
    WResponse × List UpstreamReq :=
  match email with
  | none => (jsonResponse 400 (Body.jsonErr "Invalid email address"), [])
  | some e =>
    if e = "" ∨ strContainsChar e '@' = false then
      (jsonResponse 400 (Body.jsonErr "Invalid email address"), [])
    else
      if up.ok = false then
        if up.status = 404 then
          (jsonResponse 200 (Body.jsonOk "You have been unsubscribed."),
           [UpstreamReq.patchContact (jsClean e)])
        else
          (jsonResponse 500 (Body.jsonErr "Failed to unsubscribe"),
           [UpstreamReq.patchContact (jsClean e)])
      else
        (jsonResponse 200 (Body.jsonOk "You have been unsubscribed successfully."),
         [UpstreamReq.patchContact (jsClean e)])

/-- The worker's `fetch` entry point (lines 38-79).  `Except.error ()`
models the one uncaught exception path: `POST /unsubscribe` with an
unparseable JSON body (line 60 runs `await request.json()` outside any
`try`). -/
def fetchWorker (req : WRequest) (env : Env) (up : Upstream) :
    Except Unit (WResponse × List UpstreamReq) :=
  if req.method = "OPTIONS" then
    Except.ok (preflightResponse, [])
  else if req.pathname = "/unsubscribe" ∧ req.method = "GET" then
    match req.queryEmail with
    | some e =>
      if e = "" then Except.ok (unsubPageResponse, [])
      else Except.ok (handleUnsubscribe (some e) up)
    | none => Except.ok (unsubPageResponse, [])
  else if req.pathname = "/unsubscribe" ∧ req.method = "POST" then
    match req.body with
    | none => Except.error ()
    | some b => Except.ok (handleUnsubscribe b.email up)
  else if req.method ≠ "POST" then
    Except.ok (jsonResponse 405 (Body.jsonErr "Method not allowed"), [])
  else if req.pathname = "/feedback" then
    Except.ok (handleFeedback env req.body up)
  else
    Except.ok (handleSignup req.body up)

/-- JSON-envelope test for a response body: is it `{success, message}` or
`{error}`? -/
def isJsonShape : Body → Bool
  | Body.jsonOk _ => true
  | Body.jsonErr _ => true
  | Body.htmlPage => false
  | Body.noBody => false

/-- The response envelope every JSON reply of the worker satisfies: one of
the four produced status codes, a `{success, message}` or `{error}` body,
and the permissive CORS origin header. -/
def goodResponse (r : WResponse) : Prop :=
  (r.status = 200 ∨ r.status = 400 ∨ r.status = 405 ∨ r.status = 500) ∧
  isJsonShape r.body = true ∧
  ("Access-Control-Allow-Origin", "*") ∈ r.headers

end FiftyAlert

/-! ### The legacy feedback handler of src/worker/index.js (lines 116-181):
identical control flow, but the admin addresses are hardcoded constants
and no interpolated value passes through any escaping. -/

namespace FiftyAlert.WorkerIndex

/-- `const ADMIN_EMAIL = 'urielgsn@gmail.com'` (src/worker/index.js line 21). -/
def ADMIN_EMAIL : String := "urielgsn@gmail.com"

/-- `const FORWARD_EMAIL = 'GVDEV1200@gmail.com'` (line 22). -/
def FORWARD_EMAIL : String := "GVDEV1200@gmail.com"

/-- The `html` field of the legacy feedback email (lines 141-152): the
type, message and sender email are interpolated raw. -/
def feedbackHtml (m : String) (ty em : Option String) : String :=
  feedbackChunk0 ++ jsOr ty "Feedback" ++ feedbackChunk1
    ++ brNewlines m ++ feedbackChunk2
    ++ jsTemplate em ++ feedbackChunk3
    ++ FORWARD_EMAIL ++ feedbackChunk4

/-- The single upstream send issued by the legacy `handleFeedback`. -/
def feedbackRequest (m : String) (ty em : Option String) : UpstreamReq :=
  UpstreamReq.sendEmail ADMIN_EMAIL (jsOrUndef em) (feedbackSubject m ty)
    (feedbackHtml m ty em) (feedbackText FORWARD_EMAIL m ty em)

/-- `handleFeedback` of src/worker/index.js (lines 116-181). -/
def handleFeedback (body : Option ReqBody) (up : Upstream) :
    WResponse × List UpstreamReq :=
  match body with
  | none => (jsonResponse 500 (Body.jsonErr "Server error"), [])
  | some b =>
    match b.message with
    | none => (jsonResponse 400 (Body.jsonErr "Please enter a message"), [])
    | some m =>
      if m = "" ∨ (jsTrim m).length < 3 then
        (jsonResponse 400 (Body.jsonErr "Please enter a message"), [])
      else
        if up.ok = false then
          (jsonResponse 500 (Body.jsonErr "Failed to send feedback"), [feedbackRequest m b.type b.email])
        else
          (jsonResponse 200 (Body.jsonOk "Feedback sent! Thanks for your input."),
           [feedbackRequest m b.type b.email])

end FiftyAlert.WorkerIndex

namespace FiftyAlert

/-! ### Helper lemmas on the string primitives -/

theorem listContainsChar_iff_mem {l : List Char} {c : Char} :
    listContainsChar l c = true ↔ c ∈ l := by
  induction l with
  | nil => simp [listContainsChar]
  | cons a t ih =>
    simp only [listContainsChar, Bool.or_eq_true, beq_iff_eq, ih, List.mem_cons]
    exact or_congr eq_comm Iff.rfl

theorem mem_of_mem_dropWhile {p : Char → Bool} {x : Char} :
    ∀ {l : List Char}, x ∈ l.dropWhile p → x ∈ l
  | a :: t, h => by
    by_cases hp : p a
    · simp only [List.dropWhile, hp] at h
      exact List.mem_cons_of_mem _ (mem_of_mem_dropWhile h)
    · simpa [List.dropWhile, hp] using h

theorem mem_dropWhile_of_mem {p : Char → Bool} {x : Char} (hx : p x = false) :
    ∀ {l : List Char}, x ∈ l → x ∈ l.dropWhile p
  | a :: t, h => by
    by_cases hp : p a
    · rcases List.mem_cons.mp h with rfl | h'
      · simp [hp] at hx
      · simp only [List.dropWhile, hp]
        exact mem_dropWhile_of_mem hx h'
    · simpa [List.dropWhile, hp] using h

theorem mem_trimList_at {l : List Char} : '@' ∈ trimList l ↔ '@' ∈ l := by
  constructor
  · intro h
    unfold trimList at h
    rw [List.mem_reverse] at h
    have h1 := mem_of_mem_dropWhile h
    rw [List.mem_reverse] at h1
    exact mem_of_mem_dropWhile h1
  · intro h
    unfold trimList
    rw [List.mem_reverse]
    apply mem_dropWhile_of_mem (by decide)
    rw [List.mem_reverse]
    exact mem_dropWhile_of_mem (by decide) h

theorem lowerChar_eq_at {c : Char} (h : lowerChar c = '@') : c = '@' := by
  unfold lowerChar at h
  split at h <;> simp_all

theorem mem_map_lowerChar_at {l : List Char} : '@' ∈ l.map lowerChar ↔ '@' ∈ l := by
  rw [List.mem_map]
  constructor
  · rintro ⟨c, hc, h⟩
    rwa [lowerChar_eq_at h] at hc
  · intro h
    exact ⟨'@', h, by decide⟩

/-- The `@`-validation of the worker sees through `trim().toLowerCase()`:
an email contains `@` exactly when its normalised form does. -/
theorem strContainsChar_jsClean_at (s : String) :
    strContainsChar (jsClean s) '@' = strContainsChar s '@' := by
  have h : strContainsChar (jsClean s) '@' = true ↔ strContainsChar s '@' = true := by
    simp only [strContainsChar, listContainsChar_iff_mem, jsClean, jsToLower, jsTrim,
      mem_map_lowerChar_at, mem_trimList_at]
  cases hb : strContainsChar s '@' with
  | true => exact h.mpr hb
  | false =>
    cases hb' : strContainsChar (jsClean s) '@' with
    | true => rw [hb] at h; exact absurd (h.mp hb') (by simp)
    | false => rfl

theorem ne_empty_of_contains_at {s : String} (h : strContainsChar s '@' = true) :
    s ≠ "" := by
  intro he
  subst he
  simp [strContainsChar, listContainsChar] at h

/-! ### Helper lemmas on `escapeHtml` -/

theorem repChar_append (x y : List Char) (c : Char) (r : List Char) :
    repChar (x ++ y) c r = repChar x c r ++ repChar y c r := by
  simp [repChar]

theorem escapeChar_noDanger (a : Char) : ∀ c ∈ escapeChar a, noDangerChar c := by
  intro c hc
  unfold escapeChar at hc
  split_ifs at hc with h1 h2 h3 h4 h5
  · have hm : c ∈ ['&', 'a', 'm', 'p', ';'] := hc
    fin_cases hm <;> exact ⟨by decide, by decide, by decide, by decide⟩
  · have hm : c ∈ ['&', 'l', 't', ';'] := hc
    fin_cases hm <;> exact ⟨by decide, by decide, by decide, by decide⟩
  · have hm : c ∈ ['&', 'g', 't', ';'] := hc
    fin_cases hm <;> exact ⟨by decide, by decide, by decide, by decide⟩
  · have hm : c ∈ ['&', 'q', 'u', 'o', 't', ';'] := hc
    fin_cases hm <;> exact ⟨by decide, by decide, by decide, by decide⟩
  · have hm : c ∈ ['&', '#', '0', '3', '9', ';'] := hc
    fin_cases hm <;> exact ⟨by decide, by decide, by decide, by decide⟩
  · rw [List.mem_singleton] at hc
    subst hc
    exact ⟨h2, h3, h4, h5⟩

theorem escapeHtml_noDanger (s : String) : noDanger (escapeHtml s) := by
  intro c hc
  rcases List.mem_flatMap.mp hc with ⟨a, _, ha⟩
  exact escapeChar_noDanger a c ha

/-- The five sequential single-character replacements of the claim,
applied to a character list. -/
def seqRep (l : List Char) : List Char :=
  repChar (repChar (repChar (repChar
    (repChar l '&' "&amp;".data) '<' "&lt;".data) '>' "&gt;".data) '"' "&quot;".data)
    '\'' "&#039;".data

theorem seqRep_append (x y : List Char) : seqRep (x ++ y) = seqRep x ++ seqRep y := by
  simp [seqRep, repChar_append]

theorem seqRep_singleton (a : Char) : seqRep [a] = escapeChar a := by
  by_cases h1 : a = '&'
  · subst h1; decide
  by_cases h2 : a = '<'
  · subst h2; decide
  by_cases h3 : a = '>'
  · subst h3; decide
  by_cases h4 : a = '"'
  · subst h4; decide
  by_cases h5 : a = '\''
  · subst h5; decide
  simp [seqRep, repChar, escapeChar, h1, h2, h3, h4, h5]

theorem flatMap_escapeChar_eq_seqRep : ∀ l : List Char, l.flatMap escapeChar = seqRep l
  | [] => rfl
  | a :: t => by
    have h : a :: t = [a] ++ t := rfl
    rw [h, seqRep_append, seqRep_singleton, List.flatMap_append,
      flatMap_escapeChar_eq_seqRep t]
    simp [List.flatMap]


/-! ### Shape lemmas for the handlers and the dispatcher -/

theorem jsonResponse_good (st : Nat) (b : Body)
    (h1 : st = 200 ∨ st = 400 ∨ st = 405 ∨ st = 500) (h2 : isJsonShape b = true) :
    goodResponse (jsonResponse st b) :=
  ⟨h1, h2, by
    show ("Access-Control-Allow-Origin", "*") ∈
      CORS_HEADERS ++ [("Content-Type", "application/json")]
    decide⟩

theorem handleSignup_good (body : Option ReqBody) (up : Upstream) :
    goodResponse (handleSignup body up).1 := by
  unfold handleSignup
  split
  · exact jsonResponse_good _ _ (by decide) rfl
  · split
    · exact jsonResponse_good _ _ (by decide) rfl
    · split_ifs <;> exact jsonResponse_good _ _ (by decide) rfl

theorem handleFeedback_good (env : Env) (body : Option ReqBody) (up : Upstream) :
    goodResponse (handleFeedback env body up).1 := by
  unfold handleFeedback
  split
  · exact jsonResponse_good _ _ (by decide) rfl
  · split
    · exact jsonResponse_good _ _ (by decide) rfl
    · split_ifs <;> exact jsonResponse_good _ _ (by decide) rfl

theorem handleUnsubscribe_good (email : Option String) (up : Upstream) :
    goodResponse (handleUnsubscribe email up).1 := by
  unfold handleUnsubscribe
  split
  · exact jsonResponse_good _ _ (by decide) rfl
  · split_ifs <;> exact jsonResponse_good _ _ (by decide) rfl

/-- Exhaustive description of the dispatcher: every successfully produced
output is the preflight, the form page, the 405, or a handler result. -/
theorem fetchWorker_cases (req : WRequest) (env : Env) (up : Upstream)
    (out : WResponse × List UpstreamReq) (h : fetchWorker req env up = Except.ok out) :
    (req.method = "OPTIONS" ∧ out = (preflightResponse, [])) ∨
    (req.pathname = "/unsubscribe" ∧ req.method = "GET" ∧ out = (unsubPageResponse, [])) ∨
    (∃ em, out = handleUnsubscribe em up) ∨
    (req.method ≠ "POST" ∧ out = (jsonResponse 405 (Body.jsonErr "Method not allowed"), [])) ∨
    out = handleFeedback env req.body up ∨
    out = handleSignup req.body up := by
  unfold fetchWorker at h
  split_ifs at h with h1 h2 h3 h4 h5
  · exact Or.inl ⟨h1, (Except.ok.inj h).symm⟩
  · split at h
    next e heq =>
      split_ifs at h with he
      · exact Or.inr (Or.inl ⟨h2.1, h2.2, (Except.ok.inj h).symm⟩)
      · exact Or.inr (Or.inr (Or.inl ⟨some e, (Except.ok.inj h).symm⟩))
    next => exact Or.inr (Or.inl ⟨h2.1, h2.2, (Except.ok.inj h).symm⟩)
  · split at h
    next => exact Except.noConfusion h
    next b hb => exact Or.inr (Or.inr (Or.inl ⟨b.email, (Except.ok.inj h).symm⟩))
  · exact Or.inr (Or.inr (Or.inr (Or.inl ⟨h4, (Except.ok.inj h).symm⟩)))
  · exact Or.inr (Or.inr (Or.inr (Or.inr (Or.inl (Except.ok.inj h).symm))))
  · exact Or.inr (Or.inr (Or.inr (Or.inr (Or.inr (Except.ok.inj h).symm))))


/-! ### The claims -/

/-- C1: for every unsubscribe request with a valid email, an upstream
PATCH reply that is not ok and has status 404 is treated as success:
`handleUnsubscribe` returns 200 with
`{success: true, message: 'You have been unsubscribed.'}`. -/
theorem c1_unsubscribe_404_is_success (e : String) (up : Upstream)
    (h1 : e ≠ "") (h2 : strContainsChar e '@' = true)
    (h3 : up.ok = false) (h4 : up.status = 404) :
    handleUnsubscribe (some e) up =
      (jsonResponse 200 (Body.jsonOk "You have been unsubscribed."),
       [UpstreamReq.patchContact (jsClean e)]) := by
  have hcond : ¬ (e = "" ∨ strContainsChar e '@' = false) := by
    rintro (h | h)
    · exact h1 h
    · rw [h2] at h; cases h
  simp [handleUnsubscribe, hcond, h3, h4]

theorem c1_witness :
    handleUnsubscribe (some "user@example.com") ⟨false, 404, none⟩ =
      (jsonResponse 200 (Body.jsonOk "You have been unsubscribed."),
       [UpstreamReq.patchContact (jsClean "user@example.com")]) :=
  c1_unsubscribe_404_is_success "user@example.com" ⟨false, 404, none⟩
    (by decide) (by decide) rfl rfl

/-- C2: a subscribe request whose body email is absent, or becomes empty
or `@`-free after `trim().toLowerCase()`, is rejected with 400
`{error: 'Invalid email address'}` and no upstream request is issued. -/
theorem c2_signup_invalid_email_rejected (b : ReqBody) (up : Upstream)
    (h : b.email = none ∨
      ∃ e, b.email = some e ∧ (jsClean e = "" ∨ strContainsChar (jsClean e) '@' = false)) :
    handleSignup (some b) up = (jsonResponse 400 (Body.jsonErr "Invalid email address"), []) := by
  rcases h with h | ⟨e, he, hv⟩
  · simp [handleSignup, h]
  · simp only [handleSignup, he, Option.map_some']
    rw [if_pos hv]

theorem c2_witness :
    handleSignup (some ⟨some "no-at-sign", none, none⟩) ⟨true, 200, none⟩ =
      (jsonResponse 400 (Body.jsonErr "Invalid email address"), []) :=
  c2_signup_invalid_email_rejected ⟨some "no-at-sign", none, none⟩ ⟨true, 200, none⟩
    (Or.inr ⟨"no-at-sign", rfl, Or.inr (by decide)⟩)

/-- C5: a subscribe request whose upstream reply is not ok but whose
`message` field contains `'already exists'` is treated as success:
200 `{success: true, message: 'Already subscribed!'}`. -/
theorem c5_already_exists_is_success (b : ReqBody) (e msg : String) (up : Upstream)
    (hbe : b.email = some e) (h1 : jsClean e ≠ "") (h2 : strContainsChar (jsClean e) '@' = true)
    (h3 : up.ok = false) (h4 : up.message = some msg)
    (h5 : strIncludes msg "already exists" = true) :
    handleSignup (some b) up =
      (jsonResponse 200 (Body.jsonOk "Already subscribed!"),
       [UpstreamReq.addContact (jsClean e)]) := by
  have hcond : ¬ (jsClean e = "" ∨ strContainsChar (jsClean e) '@' = false) := by
    rintro (h | h)
    · exact h1 h
    · rw [h2] at h; cases h
  have hmsg : upstreamMsgIncludes up "already exists" = true := by
    simp [upstreamMsgIncludes, h4, h5]
  simp [handleSignup, hbe, hcond, h3, hmsg]

theorem c5_witness :
    handleSignup (some ⟨some "x@y", none, none⟩) ⟨false, 422, some "Contact already exists"⟩ =
      (jsonResponse 200 (Body.jsonOk "Already subscribed!"),
       [UpstreamReq.addContact (jsClean "x@y")]) :=
  c5_already_exists_is_success ⟨some "x@y", none, none⟩ "x@y" "Contact already exists"
    ⟨false, 422, some "Contact already exists"⟩ rfl (by decide) (by decide) rfl rfl (by decide)

/-- C6: when the single upstream call fails outside the two special cases
(404 on unsubscribe, `'already exists'` on subscribe), each handler issues
exactly that one upstream request — no retry — and fails the whole request
with status 500 and an `{error}` body. -/
theorem c6_failed_upstream_no_retry_500 :
    (∀ (b : ReqBody) (e : String) (up : Upstream),
        b.email = some e → jsClean e ≠ "" → strContainsChar (jsClean e) '@' = true →
        up.ok = false → upstreamMsgIncludes up "already exists" = false →
        handleSignup (some b) up =
          (jsonResponse 500 (Body.jsonErr "Failed to subscribe"),
           [UpstreamReq.addContact (jsClean e)])) ∧
    (∀ (e : String) (up : Upstream),
        e ≠ "" → strContainsChar e '@' = true → up.ok = false → up.status ≠ 404 →
        handleUnsubscribe (some e) up =
          (jsonResponse 500 (Body.jsonErr "Failed to unsubscribe"),
           [UpstreamReq.patchContact (jsClean e)])) ∧
    (∀ (env : Env) (b : ReqBody) (m : String) (up : Upstream),
        b.message = some m → m ≠ "" → ¬ (jsTrim m).length < 3 → up.ok = false →
        handleFeedback env (some b) up =
          (jsonResponse 500 (Body.jsonErr "Failed to send feedback"),
           [feedbackRequest env m b.type b.email])) := by
  refine ⟨?_, ?_, ?_⟩
  · intro b e up hbe h1 h2 h3 h5
    have hcond : ¬ (jsClean e = "" ∨ strContainsChar (jsClean e) '@' = false) := by
      rintro (h | h)
      · exact h1 h
      · rw [h2] at h; cases h
    simp [handleSignup, hbe, hcond, h3, h5]
  · intro e up h1 h2 h3 h4
    have hcond : ¬ (e = "" ∨ strContainsChar e '@' = false) := by
      rintro (h | h)
      · exact h1 h
      · rw [h2] at h; cases h
    simp [handleUnsubscribe, hcond, h3, h4]
  · intro env b m up hbm h1 h2 h3
    have hcond : ¬ (m = "" ∨ (jsTrim m).length < 3) := by
      rintro (h | h)
      · exact h1 h
      · exact h2 h
    simp [handleFeedback, hbm, hcond, h3]

theorem c6_witness :
    handleSignup (some ⟨some "a@b", none, none⟩) ⟨false, 422, some "validation failed"⟩ =
      (jsonResponse 500 (Body.jsonErr "Failed to subscribe"),
       [UpstreamReq.addContact (jsClean "a@b")]) ∧
    handleUnsubscribe (some "a@b") ⟨false, 500, none⟩ =
      (jsonResponse 500 (Body.jsonErr "Failed to unsubscribe"),
       [UpstreamReq.patchContact (jsClean "a@b")]) ∧
    handleFeedback ⟨"admin@example.com", "forward@example.com"⟩
        (some ⟨some "a@b", some "Hello", none⟩) ⟨false, 500, none⟩ =
      (jsonResponse 500 (Body.jsonErr "Failed to send feedback"),
       [feedbackRequest ⟨"admin@example.com", "forward@example.com"⟩ "Hello" none (some "a@b")]) :=
  ⟨c6_failed_upstream_no_retry_500.1 ⟨some "a@b", none, none⟩ "a@b"
      ⟨false, 422, some "validation failed"⟩ rfl (by decide) (by decide) rfl (by decide),
   c6_failed_upstream_no_retry_500.2.1 "a@b" ⟨false, 500, none⟩
      (by decide) (by decide) rfl (by decide),
   c6_failed_upstream_no_retry_500.2.2 ⟨"admin@example.com", "forward@example.com"⟩
      ⟨some "a@b", some "Hello", none⟩ "Hello" ⟨false, 500, none⟩ rfl (by decide) (by decide) rfl⟩


/-- C10: two subscribe (or unsubscribe) requests whose emails agree after
`trim().toLowerCase()` — in particular emails differing only in ASCII
letter case or in leading/trailing whitespace — produce identical
responses and issue identical upstream requests. -/
theorem c10_email_normalisation_ext (s t : String) (mo ty : Option String) (up : Upstream)
    (h : jsClean s = jsClean t) :
    handleSignup (some ⟨some s, mo, ty⟩) up = handleSignup (some ⟨some t, mo, ty⟩) up ∧
    handleUnsubscribe (some s) up = handleUnsubscribe (some t) up := by
  constructor
  · simp only [handleSignup, Option.map_some']
    rw [h]
  · have hceq : strContainsChar s '@' = strContainsChar t '@' := by
      rw [← strContainsChar_jsClean_at s, ← strContainsChar_jsClean_at t, h]
    by_cases hc : strContainsChar s '@' = true
    · have hct : strContainsChar t '@' = true := by rw [← hceq]; exact hc
      have hconds : ¬ (s = "" ∨ strContainsChar s '@' = false) := by
        rintro (h' | h')
        · exact ne_empty_of_contains_at hc h'
        · rw [hc] at h'; cases h'
      have hcondt : ¬ (t = "" ∨ strContainsChar t '@' = false) := by
        rintro (h' | h')
        · exact ne_empty_of_contains_at hct h'
        · rw [hct] at h'; cases h'
      simp only [handleUnsubscribe]
      rw [if_neg hconds, if_neg hcondt, h]
    · have hcf : strContainsChar s '@' = false := by
        cases hcc : strContainsChar s '@'
        · rfl
        · exact absurd hcc hc
      have hctf : strContainsChar t '@' = false := by rw [← hceq]; exact hcf
      simp only [handleUnsubscribe]
      rw [if_pos (Or.inr hcf), if_pos (Or.inr hctf)]

theorem c10_witness :
    handleSignup (some ⟨some " A@B ", none, none⟩) ⟨true, 200, none⟩ =
      handleSignup (some ⟨some "a@b", none, none⟩) ⟨true, 200, none⟩ ∧
    handleUnsubscribe (some " A@B ") ⟨true, 200, none⟩ =
      handleUnsubscribe (some "a@b") ⟨true, 200, none⟩ :=
  c10_email_normalisation_ext " A@B " "a@b" none none ⟨true, 200, none⟩ (by decide)

/-- C9: `escapeHtml` replaces every `&`, `<`, `>`, `"`, `'` by its HTML
entity (equivalently to applying the five global replacements of the claim
in the listed order), and consequently its output contains none of the
characters `<`, `>`, `"`, `'`. -/
theorem c9_escapeHtml_correct (s : String) :
    escapeHtml s = escapeHtmlSeq s ∧
    ∀ c ∈ (escapeHtml s).data, c ≠ '<' ∧ c ≠ '>' ∧ c ≠ '"' ∧ c ≠ '\'' := by
  constructor
  · exact congrArg String.mk (flatMap_escapeChar_eq_seqRep s.data)
  · exact fun c hc => escapeHtml_noDanger s c hc

theorem c9_witness : escapeHtml "a<b\"'&" = escapeHtmlSeq "a<b\"'&" :=
  (c9_escapeHtml_correct "a<b\"'&").1

/-- C3 as amended: in the worker variant that defines `escapeHtml`
(src/unnamed/part_000), the feedback email's HTML body is the fixed
template with, at each of its three user-controlled holes, a string free
of `<`, `>`, `"`, `'` (the escaped type, message and sender email; the
message additionally has its newlines turned into `<br>` after escaping).
The forward address comes from the environment, not from the request. -/
theorem c3_amended_feedback_html_escaped (fwd m : String) (ty em : Option String) :
    noDanger (escapeHtml (jsOr ty "Feedback")) ∧
    noDanger (escapeHtml m) ∧
    noDanger (escapeHtml (jsOr em "Anonymous")) ∧
    feedbackHtml fwd m ty em =
      feedbackChunk0 ++ escapeHtml (jsOr ty "Feedback") ++ feedbackChunk1
        ++ brNewlines (escapeHtml m) ++ feedbackChunk2
        ++ escapeHtml (jsOr em "Anonymous") ++ feedbackChunk3
        ++ fwd ++ feedbackChunk4 :=
  ⟨escapeHtml_noDanger _, escapeHtml_noDanger _, escapeHtml_noDanger _, rfl⟩

theorem c3_witness :
    noDanger (escapeHtml (jsOr (some "Bug") "Feedback")) ∧
    noDanger (escapeHtml "hi<x") ∧
    noDanger (escapeHtml (jsOr (some "a@b") "Anonymous")) ∧
    feedbackHtml "forward@example.com" "hi<x" (some "Bug") (some "a@b") =
      feedbackChunk0 ++ escapeHtml (jsOr (some "Bug") "Feedback") ++ feedbackChunk1
        ++ brNewlines (escapeHtml "hi<x") ++ feedbackChunk2
        ++ escapeHtml (jsOr (some "a@b") "Anonymous") ++ feedbackChunk3
        ++ "forward@example.com" ++ feedbackChunk4 :=
  c3_amended_feedback_html_escaped "forward@example.com" "hi<x" (some "Bug") (some "a@b")

set_option maxRecDepth 100000 in
/-- C3 counterexample: the feedback handler of src/worker/index.js sends
an email whose HTML body interpolates the user's message raw: for the
message `abc<x` the issued send request's HTML contains the unescaped
text `abc<x` and no `&lt;` anywhere — the claim that every user-supplied
string is HTML-escaped before interpolation fails on this handler. -/
theorem c3_counterexample :
    (WorkerIndex.handleFeedback (some ⟨some "a@b", some "abc<x", some "Bug"⟩)
        ⟨true, 200, none⟩).2 =
      [WorkerIndex.feedbackRequest "abc<x" (some "Bug") (some "a@b")] ∧
    strIncludes (WorkerIndex.feedbackHtml "abc<x" (some "Bug") (some "a@b")) "abc<x" = true ∧
    strIncludes (WorkerIndex.feedbackHtml "abc<x" (some "Bug") (some "a@b")) "&lt;" = false :=
  ⟨by decide, by decide, by decide⟩


/-- C4 counterexample: a GET request to /unsubscribe without an email
query parameter is answered by the worker with the static HTML form page
(status 200, content type text/html), whose body is not a JSON
`{success, message}` or `{error}` envelope — the claim that every
response has such a JSON body fails on this input. -/
theorem c4_counterexample :
    fetchWorker ⟨"GET", "/unsubscribe", none, none⟩
        ⟨"admin@example.com", "forward@example.com"⟩ ⟨true, 200, none⟩ =
      Except.ok (unsubPageResponse, []) ∧
    isJsonShape unsubPageResponse.body = false := ⟨rfl, rfl⟩

/-- C4 as amended: every response the worker's fetch handler produces has
status 200, 400, 405 or 500, and its body is a JSON `{success, message}`
or `{error}` envelope except in exactly two cases: the CORS preflight
(OPTIONS, null body) and the GET /unsubscribe form page (HTML body). -/
theorem c4_amended_response_envelope (req : WRequest) (env : Env) (up : Upstream)
    (out : WResponse × List UpstreamReq) (h : fetchWorker req env up = Except.ok out) :
    (out.1.status = 200 ∨ out.1.status = 400 ∨ out.1.status = 405 ∨ out.1.status = 500) ∧
    (isJsonShape out.1.body = true ∨ out.1.body = Body.noBody ∨ out.1.body = Body.htmlPage) ∧
    (out.1.body = Body.noBody → req.method = "OPTIONS") ∧
    (out.1.body = Body.htmlPage → req.method = "GET" ∧ req.pathname = "/unsubscribe") := by
  rcases fetchWorker_cases req env up out h with
    ⟨hm, rfl⟩ | ⟨hp, hm, rfl⟩ | ⟨em, rfl⟩ | ⟨hm, rfl⟩ | rfl | rfl
  · exact ⟨Or.inl rfl, Or.inr (Or.inl rfl), fun _ => hm, fun hb => absurd hb (by decide)⟩
  · exact ⟨Or.inl rfl, Or.inr (Or.inr rfl), fun hb => absurd hb (by decide),
      fun _ => ⟨hm, hp⟩⟩
  · obtain ⟨hst, hsh, -⟩ := handleUnsubscribe_good em up
    exact ⟨hst, Or.inl hsh,
      fun hb => by rw [hb] at hsh; exact absurd hsh (by decide),
      fun hb => by rw [hb] at hsh; exact absurd hsh (by decide)⟩
  · exact ⟨Or.inr (Or.inr (Or.inl rfl)), Or.inl rfl,
      fun hb => absurd hb (by decide), fun hb => absurd hb (by decide)⟩
  · obtain ⟨hst, hsh, -⟩ := handleFeedback_good env req.body up
    exact ⟨hst, Or.inl hsh,
      fun hb => by rw [hb] at hsh; exact absurd hsh (by decide),
      fun hb => by rw [hb] at hsh; exact absurd hsh (by decide)⟩
  · obtain ⟨hst, hsh, -⟩ := handleSignup_good req.body up
    exact ⟨hst, Or.inl hsh,
      fun hb => by rw [hb] at hsh; exact absurd hsh (by decide),
      fun hb => by rw [hb] at hsh; exact absurd hsh (by decide)⟩

theorem c4_witness :
    (preflightResponse.status = 200 ∨ preflightResponse.status = 400 ∨
      preflightResponse.status = 405 ∨ preflightResponse.status = 500) ∧
    (isJsonShape preflightResponse.body = true ∨ preflightResponse.body = Body.noBody ∨
      preflightResponse.body = Body.htmlPage) ∧
    (preflightResponse.body = Body.noBody → "OPTIONS" = "OPTIONS") ∧
    (preflightResponse.body = Body.htmlPage → "OPTIONS" = "GET" ∧ "/" = "/unsubscribe") :=
  c4_amended_response_envelope ⟨"OPTIONS", "/", none, none⟩
    ⟨"admin@example.com", "forward@example.com"⟩ ⟨true, 200, none⟩
    (preflightResponse, []) rfl

/-- C7 counterexample: for the empty email string, GET /unsubscribe with
`email=` serves the HTML form page (200), while POST /unsubscribe with
body `{email: ""}` returns 400 `{error: 'Invalid email address'}` — the
two routes do not produce the same response for every email value. -/
theorem c7_counterexample :
    fetchWorker ⟨"GET", "/unsubscribe", some "", none⟩
        ⟨"admin@example.com", "forward@example.com"⟩ ⟨true, 200, none⟩ =
      Except.ok (unsubPageResponse, []) ∧
    fetchWorker ⟨"POST", "/unsubscribe", none, some ⟨some "", none, none⟩⟩
        ⟨"admin@example.com", "forward@example.com"⟩ ⟨true, 200, none⟩ =
      Except.ok (jsonResponse 400 (Body.jsonErr "Invalid email address"), []) ∧
    unsubPageResponse.status = 200 ∧
    (jsonResponse 400 (Body.jsonErr "Invalid email address")).status = 400 :=
  ⟨rfl, rfl, rfl, rfl⟩

/-- C7 as amended: for every nonempty email string E, a GET request to
/unsubscribe with query parameter `email=E` produces exactly the same
result as a POST to /unsubscribe with JSON body `{email: E}` — both
invoke `handleUnsubscribe` on E. -/
theorem c7_amended_get_post_agree (E : String) (env : Env) (up : Upstream) (hE : E ≠ "") :
    fetchWorker ⟨"GET", "/unsubscribe", some E, none⟩ env up =
      fetchWorker ⟨"POST", "/unsubscribe", none, some ⟨some E, none, none⟩⟩ env up := by
  simp [fetchWorker, hE]

theorem c7_witness :
    fetchWorker ⟨"GET", "/unsubscribe", some "user@example.com", none⟩
        ⟨"admin@example.com", "forward@example.com"⟩ ⟨false, 404, none⟩ =
      fetchWorker ⟨"POST", "/unsubscribe", none, some ⟨some "user@example.com", none, none⟩⟩
        ⟨"admin@example.com", "forward@example.com"⟩ ⟨false, 404, none⟩ :=
  c7_amended_get_post_agree "user@example.com"
    ⟨"admin@example.com", "forward@example.com"⟩ ⟨false, 404, none⟩ (by decide)

/-- C8: every response the worker's fetch handler produces — preflight,
form page, 405, and every handler outcome — carries the header
`Access-Control-Allow-Origin: *`. -/
theorem c8_cors_header_always (req : WRequest) (env : Env) (up : Upstream)
    (out : WResponse × List UpstreamReq) (h : fetchWorker req env up = Except.ok out) :
    ("Access-Control-Allow-Origin", "*") ∈ out.1.headers := by
  rcases fetchWorker_cases req env up out h with
    ⟨_, rfl⟩ | ⟨_, _, rfl⟩ | ⟨em, rfl⟩ | ⟨_, rfl⟩ | rfl | rfl
  · decide
  · decide
  · exact (handleUnsubscribe_good em up).2.2
  · exact (jsonResponse_good 405 (Body.jsonErr "Method not allowed") (by decide) rfl).2.2
  · exact (handleFeedback_good env req.body up).2.2
  · exact (handleSignup_good req.body up).2.2

theorem c8_witness : ("Access-Control-Allow-Origin", "*") ∈ preflightResponse.headers :=
  c8_cors_header_always ⟨"OPTIONS", "/", none, none⟩
    ⟨"admin@example.com", "forward@example.com"⟩ ⟨true, 200, none⟩
    (preflightResponse, []) rfl

end FiftyAlert
